import Mathlib

/-!
Verification of the delivery-percentage pipeline scripts
(`Delivery.py`, `Delivery_new.py`, `Delivery_good_mail.py`).

The scripts fetch an HTML table of equity delivery statistics, pick the
relevant table, coerce the delivery-percentage column to numbers, filter
high-delivery rows and (in `Delivery_new.py`) score each selected row with
a deterministic heuristic.

Modelling conventions:
- Python floats are modelled as exact rationals (`ℚ`); `round(x, 2)` is
  modelled by `round2` below (round-half-up to hundredths; Python rounds
  the nearest binary double half-to-even, which agrees except on exact
  midpoints, and no statement below depends on a midpoint case).
- A cell after `pd.to_numeric(..., errors="coerce")` is an `Option ℚ`:
  `none` models `NaN` (a failed parse).  Pandas comparisons such as
  `NaN > 85` evaluate to `False`; the embedded filters map `none` to
  `false` accordingly.
- Python strings are Lean `String`s; `.lower()` and `.strip()` are
  modelled character-wise (`lowerStr`, `stripStr`), and the substring
  test `a in b` is `strContains b a`.
- Fallible steps (`raise`) are modelled with `Except`/`Option` results.
-/

/-- Character-list test: `isLeadSeg p l` is true when `p` occurs at the head
of `l` (used to build the substring test). -/
def isLeadSeg : List Char → List Char → Bool
  | [], _ => true
  | _ :: _, [] => false
  | a :: as, b :: bs => a == b && isLeadSeg as bs

/-- Substring occurrence test on character lists. -/
def hasSubstrL (hay pat : List Char) : Bool :=
  match hay with
  | [] => pat.isEmpty
  | _ :: t => isLeadSeg pat hay || hasSubstrL t pat

/-- Model of Python `a in b` on strings: `strContains b a`. -/
def strContains (hay pat : String) : Bool := hasSubstrL hay.toList pat.toList

/-- Model of Python `str.lower()`. -/
def lowerStr (s : String) : String := String.mk (s.toList.map Char.toLower)

/-- Model of Python `str.strip()` (drop whitespace at both ends). -/
def stripStr (s : String) : String :=
  String.mk (((s.toList.dropWhile Char.isWhitespace).reverse.dropWhile
    Char.isWhitespace).reverse)

/-- Model of Python `round(x, 2)`: round to a multiple of `1/100`. -/
def round2 (x : ℚ) : ℚ := (⌊100 * x + 1/2⌋ : ℤ) / 100

theorem round2_le (x : ℚ) : round2 x ≤ x + 1/200 := by
  unfold round2
  have h : ((⌊100 * x + 1/2⌋ : ℤ) : ℚ) ≤ 100 * x + 1/2 := Int.floor_le _
  linarith

theorem round2_ge (x : ℚ) : x - 1/200 ≤ round2 x := by
  unfold round2
  have h : (100 * x + 1/2) - 1 < ((⌊100 * x + 1/2⌋ : ℤ) : ℚ) := Int.sub_one_lt_floor _
  linarith

/-! ## Data model

`RawRow` is one row of the selected three-column table after
`pd.to_numeric(..., errors="coerce")` was applied to the price and
delivery cells (`Delivery_good_mail.py` lines 119-122); `none` is `NaN`.
`NormRow` is a row that survived `dropna`, with both numbers present. -/

structure RawRow where
  name : String
  price : Option ℚ
  dely : Option ℚ
deriving DecidableEq, Repr

structure NormRow where
  name : String
  price : ℚ
  dely : ℚ
deriving DecidableEq, Repr

/-! ## Table Resolver (`Delivery_good_mail.py`, `_pick_table` and
the column lookup in `fetch_delivery_table`)

A parsed candidate table is abstracted by its list of column names
(`shape[1]` is the number of columns). -/

structure PTable where
  cols : List String
deriving DecidableEq, Repr

/-- One candidate qualifies in `_pick_table` when some normalized column
name contains both a "company" and a "name" token and some column name
contains a "dely" or "delivery" token (lines 73-78). -/
def qualifies (t : PTable) : Bool :=
  let lc := t.cols.map fun c => lowerStr (stripStr c)
  (lc.any fun c => strContains c "company" && strContains c "name") &&
  (lc.any fun c => strContains c "dely" || strContains c "delivery")

/-- Python `max(tables, key=lambda x: x.shape[1])`: the first table with
the maximal column count (strictly wider replaces the current maximum). -/
def widestTable : List PTable → Option PTable
  | [] => none
  | t :: ts => some (ts.foldl (fun acc x =>
      if acc.cols.length < x.cols.length then x else acc) t)

/-- `_pick_table` (lines 71-82): first candidate with both company and
delivery semantics, else the widest table. -/
def pickTable (tables : List PTable) : Option PTable :=
  match tables.find? qualifies with
  | some t => some t
  | none => widestTable tables

/-- `find_col` (lines 103-108): first column whose lowercased name
contains one of the candidate tokens. -/
def findCol (cols : List String) (cands : List String) : Option String :=
  cols.find? fun c => cands.any fun k => strContains (lowerStr c) k

/-- Resolution of the delivery column (line 112):
`find_col(["dely", "delivery"]) or ("Dely %" if "Dely %" in base.columns else None)`. -/
def delyColOf (cols : List String) : Option String :=
  match findCol cols ["dely", "delivery"] with
  | some c => some c
  | none => if "Dely %" ∈ cols then some "Dely %" else none

/-- Lines 112-114: a `none` delivery column raises `ValueError`. -/
def delyColResolve (cols : List String) : Except String String :=
  match delyColOf cols with
  | some c => Except.ok c
  | none => Except.error "Could not locate Delivery column"

/-! ## Normalizer (`Delivery_good_mail.py` lines 119-125)

Both the price and the delivery cell are coerced to numbers and then
`df.dropna(subset=["Last Price", "Dely %"])` keeps exactly the rows where
both parses succeeded.  There is no further validation step. -/

def normalizeTable (rows : List RawRow) : List NormRow :=
  rows.filterMap fun r =>
    match r.price, r.dely with
    | some p, some d => some ⟨r.name, p, d⟩
    | _, _ => none

/-! ## Selector (`Delivery_good_mail.py`, `select_high_delivery`,
lines 127-129): filter by `Dely % >= DELIVERY_THRESHOLD`, sort by
`Dely %` descending, truncate with `head(MAX_STOCKS)`.

`MAX_STOCKS` defaults to 6.  `sort_values` uses numpy quicksort, whose
order on equal keys is not specified to preserve input order; the Lean
model uses a stable insertion sort, which agrees with any correct sort
whenever the surviving delivery values are pairwise distinct. -/

def MAX_STOCKS : ℕ := 6

def highDeliveryFilter (thr : ℚ) (rows : List NormRow) : List NormRow :=
  rows.filter fun r => thr ≤ r.dely

def delyGE (a b : NormRow) : Prop := b.dely ≤ a.dely

instance : DecidableRel delyGE := fun a b => inferInstanceAs (Decidable (b.dely ≤ a.dely))

instance : IsTotal NormRow delyGE := ⟨fun a b => le_total b.dely a.dely⟩

instance : IsTrans NormRow delyGE := ⟨fun _ _ _ h1 h2 => le_trans h2 h1⟩

def sortDesc (l : List NormRow) : List NormRow := l.insertionSort delyGE

def selectHighDelivery (thr : ℚ) (rows : List NormRow) : List NormRow :=
  (sortDesc (highDeliveryFilter thr rows)).take MAX_STOCKS

/-! ## Fetch step of `Delivery.py` (lines 27-63)

`response.raise_for_status()` raises on a 4xx/5xx status.  The blocking
checks on lines 46-51 only print a diagnostic; control flow continues
into `pd.read_html` regardless.  `pd.read_html` raises `ValueError`
when no table is found; otherwise the script takes `df_list[0]`. -/

structure HttpResponse where
  status : ℕ
  text : String
deriving Repr

inductive FetchError where
  | httpStatus
  | noTables
deriving DecidableEq, Repr

/-- The print-only blocking diagnostics of `Delivery.py` lines 46-51
(an `if`/`elif` chain, hence at most one message). -/
def blockingWarning (text : String) : Option String :=
  if strContains (lowerStr text) "access denied" then
    some "Access denied - website is blocking us"
  else if strContains (lowerStr text) "captcha" then
    some "Captcha detected - website is blocking us"
  else if text.length < 5000 then
    some "Page seems too short - might be redirected or blocked"
  else
    none

/-- The whole step-1 control flow of `Delivery.py`: transport errors and
an empty table list are fatal, everything else succeeds with the first
parsed table.  The content checks do not influence the result. -/
def fetchStep (resp : HttpResponse) (tables : List PTable) : Except FetchError PTable :=
  if 400 ≤ resp.status then Except.error FetchError.httpStatus
  else
    match tables with
    | [] => Except.error FetchError.noTables
    | t :: _ => Except.ok t

/-! ## Filters of `Delivery.py` (line 76) and `Delivery_new.py`
(lines 72-81)

Both use the strict comparison `df["Dely %"] > 85`.  In pandas a `NaN`
delivery value compares `False` against 85, so such rows are excluded
even without a `dropna`; `Delivery_new.py` additionally drops them
explicitly first. -/

def delyAbove85 (r : RawRow) : Bool :=
  match r.dely with
  | some d => decide (85 < d)
  | none => false

def highDeliveryOld (rows : List RawRow) : List RawRow :=
  rows.filter delyAbove85

def dropnaDely (rows : List RawRow) : List RawRow :=
  rows.filter fun r => r.dely.isSome

def highDeliveryNew (rows : List RawRow) : List RawRow :=
  (dropnaDely rows).filter delyAbove85

/-! ## Scorer (`Delivery_new.py`, `analyze_stock`, lines 85-164, and the
per-row indicator derivation of the analysis loop, lines 185-213)

`analyze_stock` receives `cmp`, `atr`, `rsi`, `macd_signal`, `earnings`
(the `sector` argument is accepted but never read).  Its only failure
mode on numeric input is the `ZeroDivisionError` of `atr / cmp` when
`cmp == 0`, which the surrounding `try` turns into the fallback result
dict (strings `"N/A"`, `"Calculation Error"`, `"Analysis Failed"`); this
is the `calcError` constructor below.  All other numeric fields are kept
as exact numbers; the script formats them into strings only when
building the result dict. -/

inductive AnalysisResult where
  | ok (stock : String) (currentPrice probMove upsideTarget upsidePct slPrice slPct : ℚ)
      (technical priceAction fundamentals keyDriver : String) (riskReward : ℚ)
  | calcError (stock : String)
deriving DecidableEq, Repr

/-- `atr_factor = min(15, (atr / cmp) * 100)` (line 98). -/
def atrFactor (cmp atr : ℚ) : ℚ := min 15 (atr / cmp * 100)

/-- `rsi_factor = (rsi - 50) * 0.3` (line 99). -/
def rsiFactor (rsi : ℚ) : ℚ := (rsi - 50) * (3/10)

/-- `macd_factor = 10 if macd_signal == "Bullish" else 0` (line 100). -/
def macdFactor (macd : String) : ℚ := if macd = "Bullish" then 10 else 0

/-- `prob_move = min(95, max(20, base_prob + atr_factor + rsi_factor + macd_factor))`
with `base_prob = 60` (lines 97-102). -/
def probMoveCalc (cmp atr rsi : ℚ) (macd : String) : ℚ :=
  min 95 (max 20 (60 + atrFactor cmp atr + rsiFactor rsi + macdFactor macd))

/-- `multiplier = 2.5 if macd_signal == "Bullish" and rsi > 60 else 2.0` (line 105). -/
def bullMult (rsi : ℚ) (macd : String) : ℚ :=
  if macd = "Bullish" ∧ 60 < rsi then 5/2 else 2

/-- `upside_target = round(cmp + atr * multiplier, 2)` (line 106). -/
def upsideTargetCalc (cmp atr rsi : ℚ) (macd : String) : ℚ :=
  round2 (cmp + atr * bullMult rsi macd)

/-- `upside_pct = round(((upside_target - cmp) / cmp) * 100, 2)` (line 107). -/
def upsidePctCalc (cmp atr rsi : ℚ) (macd : String) : ℚ :=
  round2 ((upsideTargetCalc cmp atr rsi macd - cmp) / cmp * 100)

/-- `risk_reward_ratio = 2.0` (line 110). -/
def riskRewardConst : ℚ := 2

/-- `sl_pct = round(upside_pct / risk_reward_ratio, 2)` (line 111). -/
def slPctCalc (cmp atr rsi : ℚ) (macd : String) : ℚ :=
  round2 (upsidePctCalc cmp atr rsi macd / riskRewardConst)

/-- `sl_price = round(cmp - (cmp * sl_pct / 100), 2)` (line 112). -/
def slPriceCalc (cmp atr rsi : ℚ) (macd : String) : ℚ :=
  round2 (cmp - cmp * slPctCalc cmp atr rsi macd / 100)

/-- Qualitative tag `technical` (lines 115-119). -/
def technicalTag (rsi : ℚ) (macd : String) : String :=
  if macd = "Bullish" ∧ 60 < rsi then "Very Bullish (MACD+, RSI>60)"
  else if macd = "Bullish" then "Bullish (MACD+)"
  else "Neutral to Bearish"

/-- Qualitative tag `price_action` (lines 121-125). -/
def priceActionTag (atr : ℚ) : String :=
  if 30 < atr then "Strong Momentum (High Delivery)"
  else if 20 < atr then "Moderate Momentum"
  else "Range-bound"

/-- Qualitative tag `fundamentals` (lines 127-131). -/
def fundamentalsTag (earnings : String) : String :=
  if earnings = "Positive" then "Strong (Earnings+, High Delivery)"
  else if earnings = "Neutral" then "Moderate"
  else "Weak"

/-- Qualitative tag `driver` (lines 133-137). -/
def keyDriverTag (pm : ℚ) : String :=
  if 75 < pm then "Institutional Interest + Momentum"
  else if 60 < pm then "Momentum Play"
  else "Range Trading"

/-- `analyze_stock` on numeric input.  For `cmp = 0` the computation of
`atr_factor` raises `ZeroDivisionError`, caught on line 151, giving the
fallback dict; otherwise the function returns the computed dict. -/
def analyzeStock (stock : String) (cmp atr rsi : ℚ) (macd earnings : String) :
    AnalysisResult :=
  if cmp = 0 then AnalysisResult.calcError stock
  else
    AnalysisResult.ok stock cmp
      (probMoveCalc cmp atr rsi macd)
      (upsideTargetCalc cmp atr rsi macd)
      (upsidePctCalc cmp atr rsi macd)
      (slPriceCalc cmp atr rsi macd)
      (slPctCalc cmp atr rsi macd)
      (technicalTag rsi macd)
      (priceActionTag atr)
      (fundamentalsTag earnings)
      (keyDriverTag (probMoveCalc cmp atr rsi macd))
      riskRewardConst

/-- `estimated_atr = max(15, min(50, (delivery_pct - 70) * 2 + current_price * 0.02))`
(line 187). -/
def estimatedAtr (price dely : ℚ) : ℚ :=
  max 15 (min 50 ((dely - 70) * 2 + price * (2/100)))

/-- `estimated_rsi = min(80, max(45, 50 + (delivery_pct - 75) * 2))` (line 191). -/
def estimatedRsi (dely : ℚ) : ℚ :=
  min 80 (max 45 (50 + (dely - 75) * 2))

/-- `macd_signal` derivation (line 194). -/
def macdOf (dely : ℚ) : String :=
  if 90 < dely then "Bullish" else if 85 < dely then "Neutral" else "Bearish"

/-- `earnings` derivation (line 197). -/
def earningsOf (dely : ℚ) : String :=
  if 90 < dely then "Positive" else "Neutral"

/-- `sector` derivation (line 200); passed to `analyze_stock` but unused there. -/
def sectorOf (dely : ℚ) : String :=
  if 88 < dely then "Positive" else "Neutral"

/-- One full scoring run for a row of the high-delivery table: derive the
indicators from `(price, delivery_pct)` and call `analyze_stock`
(lines 185-213).  A pure function of its three arguments. -/
def scoreRow (name : String) (price dely : ℚ) : AnalysisResult :=
  analyzeStock name price (estimatedAtr price dely) (estimatedRsi dely)
    (macdOf dely) (earningsOf dely)

/-- The `upside_pct` field of a result (0 for the fallback dict, whose
field holds the string `"Calculation Error"`). -/
def resUpsidePct : AnalysisResult → ℚ
  | AnalysisResult.ok _ _ _ _ u _ _ _ _ _ _ _ => u
  | AnalysisResult.calcError _ => 0

/-- The `sl_pct` field of a result (0 for the fallback dict). -/
def resSlPct : AnalysisResult → ℚ
  | AnalysisResult.ok _ _ _ _ _ _ s _ _ _ _ _ => s
  | AnalysisResult.calcError _ => 0

/-! ## Concrete inputs used by the claim checks -/

/-- Response body used to refute C4: it carries a blocking marker and is
far below the 5000-character threshold. -/
def blockedText : String := "Access Denied - complete the verification challenge"

/-- First candidate table of Scenario C (delivery token, no company token). -/
def tableA : PTable := ⟨["Name", "Dely %"]⟩

/-- Second candidate table of Scenario C (full match). -/
def tableB : PTable := ⟨["Company Name", "Last Price", "Delivery Percent"]⟩

/-- Seven normalized rows with pairwise distinct delivery values, all
above the threshold (used to exhibit the `head(MAX_STOCKS)` truncation). -/
def rowsSeven : List NormRow :=
  [⟨"A", 1, 92⟩, ⟨"B", 2, 91⟩, ⟨"C", 3, 90⟩, ⟨"D", 4, 89⟩,
   ⟨"E", 5, 88⟩, ⟨"F", 6, 87⟩, ⟨"G", 7, 86⟩]

/-! ## Claims -/

/-- C1 counterexample: a row whose delivery percentage is exactly 85 is
dropped by the `Delivery.py` and `Delivery_new.py` filters (strict
`> 85`), contradicting the claimed inclusive comparison. -/
theorem c1_counterexample :
    highDeliveryOld [⟨"Edge", some 100, some 85⟩] = [] ∧
    highDeliveryNew [⟨"Edge", some 100, some 85⟩] = [] := by
  decide

/-- C1 (amended): only `select_high_delivery` in `Delivery_good_mail.py`
filters inclusively, keeping exactly the rows with
`delivery_pct >= threshold`; the `Delivery.py` and `Delivery_new.py`
variants keep exactly the rows with `delivery_pct > 85`, so a row exactly
at the threshold is excluded there. -/
theorem c1_threshold_filter :
    (∀ (thr : ℚ) (rows : List NormRow) (r : NormRow),
        r ∈ highDeliveryFilter thr rows ↔ r ∈ rows ∧ thr ≤ r.dely) ∧
    (∀ (rows : List RawRow) (r : RawRow),
        r ∈ highDeliveryOld rows ↔ r ∈ rows ∧ ∃ d, r.dely = some d ∧ 85 < d) ∧
    (∀ (rows : List RawRow) (r : RawRow),
        r ∈ highDeliveryNew rows ↔ r ∈ rows ∧ ∃ d, r.dely = some d ∧ 85 < d) := by
  refine ⟨fun thr rows r => ?_, fun rows r => ?_, fun rows r => ?_⟩
  · simp [highDeliveryFilter, List.mem_filter]
  · simp only [highDeliveryOld, List.mem_filter]
    refine and_congr_right fun _ => ?_
    cases h : r.dely with
    | none => simp [delyAbove85, h]
    | some d => simp [delyAbove85, h]
  · simp only [highDeliveryNew, dropnaDely, List.mem_filter, List.filter_filter]
    refine and_congr_right fun _ => ?_
    cases h : r.dely with
    | none => simp [delyAbove85, h]
    | some d => simp [delyAbove85, h]

/-- C2 counterexample: a parsed delivery value of 150 (outside `[0,100]`)
survives normalization and even reaches the selection output, because
the code validates nothing beyond `dropna`. -/
theorem c2_counterexample :
    normalizeTable [⟨"X", some 10, some 150⟩] = [⟨"X", 10, 150⟩] ∧
    selectHighDelivery 85 (normalizeTable [⟨"X", some 10, some 150⟩]) =
      [⟨"X", 10, 150⟩] := by
  decide

/-- C2 (amended): the Normalizer keeps exactly the rows whose price and
delivery cells both parsed to a number; it performs no `[0,100]` range
validation, so out-of-range delivery values are passed downstream
unchanged. -/
theorem c2_normalizer_keeps_parsed :
    ∀ (rows : List RawRow) (r : NormRow),
      r ∈ normalizeTable rows ↔
        ∃ raw, raw ∈ rows ∧ raw.name = r.name ∧
          raw.price = some r.price ∧ raw.dely = some r.dely := by
  intro rows r
  unfold normalizeTable
  rw [List.mem_filterMap]
  constructor
  · rintro ⟨a, ha, hfa⟩
    refine ⟨a, ha, ?_⟩
    cases hp : a.price with
    | none => rw [hp] at hfa; simp at hfa
    | some p =>
      cases hd : a.dely with
      | none => rw [hp, hd] at hfa; simp at hfa
      | some d =>
        rw [hp, hd] at hfa
        simp only [Option.some.injEq] at hfa
        rw [← hfa]
        simp
  · rintro ⟨a, ha, hn, hp, hd⟩
    refine ⟨a, ha, ?_⟩
    rw [hp, hd, hn]

/-- C3: the Scorer is a pure, deterministic function of the row's
`(price, delivery_pct)` pair (given the stock name): identical inputs
yield identical results in every field.  `analyze_stock` and the
indicator derivation read no external data and use no randomness. -/
theorem c3_scorer_deterministic :
    ∀ (name : String) (p1 d1 p2 d2 : ℚ),
      p1 = p2 → d1 = d2 → scoreRow name p1 d1 = scoreRow name p2 d2 := by
  intro name p1 d1 p2 d2 hp hd
  rw [hp, hd]

/-- C3 witness: the determinism theorem applied at a concrete input. -/
theorem c3_witness :
    (100 : ℚ) = 100 ∧ (92 : ℚ) = 92 ∧
    scoreRow "Alpha" 100 92 = scoreRow "Alpha" 100 92 :=
  ⟨rfl, rfl, c3_scorer_deterministic "Alpha" 100 92 100 92 rfl rfl⟩

/-- C4 counterexample: on a 200 response whose body contains
"access denied" (case-insensitively) and is shorter than 5000
characters, `Delivery.py` prints a diagnostic but still succeeds with
the first parsed table; no error is raised. -/
theorem c4_counterexample :
    blockingWarning blockedText = some "Access denied - website is blocking us" ∧
    blockedText.length < 5000 ∧
    fetchStep ⟨200, blockedText⟩ [⟨["Company Name", "Dely %"]⟩] =
      Except.ok ⟨["Company Name", "Dely %"]⟩ := by
  refine ⟨by decide, by decide, rfl⟩

/-- C4 (amended): after a transport-level success (status below 400) and
a non-empty table list, the fetch step of `Delivery.py` always succeeds
with the first table, regardless of payload length or blocking markers;
the content checks only print warnings. -/
theorem c4_fetch_ignores_content :
    ∀ (resp : HttpResponse) (t : PTable) (rest : List PTable),
      resp.status < 400 → fetchStep resp (t :: rest) = Except.ok t := by
  intro resp t rest h
  unfold fetchStep
  rw [if_neg (by omega)]

/-- C4 witness: the amended theorem applied to a concrete 200 response. -/
theorem c4_witness :
    (200 < 400) ∧ fetchStep ⟨200, "ok"⟩ [⟨["A"]⟩] = Except.ok ⟨["A"]⟩ :=
  ⟨by decide, c4_fetch_ignores_content ⟨200, "ok"⟩ ⟨["A"]⟩ [] (by decide)⟩

/-- C5 counterexample: on a table whose headers `["Foo", "Bar"]` carry no
delivery token, the resolution raises (`ValueError`, modelled as
`Except.error`) instead of falling back to the last column `"Bar"`, so
`delivery_pct` does not always resolve when a table exists. -/
theorem c5_counterexample :
    delyColResolve ["Foo", "Bar"] = Except.error "Could not locate Delivery column" :=
  rfl

/-- C5 (amended): the only fallback after token matching is the literal
header `"Dely %"`, and it is dead code, because any column named
`"Dely %"` already token-matches; hence delivery-column resolution
succeeds exactly when token matching finds a column, and otherwise the
code raises. -/
theorem c5_dely_fallback_dead :
    ∀ (cols : List String), delyColOf cols = findCol cols ["dely", "delivery"] := by
  intro cols
  unfold delyColOf
  cases h : findCol cols ["dely", "delivery"] with
  | some c => rfl
  | none =>
    have hnot : "Dely %" ∉ cols := by
      intro hmem
      have hfail := List.find?_eq_none.mp h "Dely %" hmem
      exact hfail (by decide)
    simp [hnot]

/-- C6: `_pick_table` returns the first candidate whose columns match
both the company and the delivery token rules, skipping candidates that
match only partially. -/
theorem c6_pick_first_full_match :
    ∀ (pre : List PTable) (t : PTable) (post : List PTable),
      (∀ u ∈ pre, qualifies u = false) → qualifies t = true →
      pickTable (pre ++ t :: post) = some t := by
  intro pre t post hpre ht
  have hfind : (pre ++ t :: post).find? qualifies = some t := by
    induction pre with
    | nil => exact List.find?_cons_of_pos _ ht
    | cons a rest ih =>
      rw [List.cons_append, List.find?_cons_of_neg]
      · exact ih fun u hu => hpre u (List.mem_cons_of_mem a hu)
      · simp [hpre a (List.mem_cons_self a rest)]
  unfold pickTable
  rw [hfind]

/-- C6 witness: Scenario C.  The table `["Name", "Dely %"]` lacks a
company token, the table `["Company Name", "Last Price",
"Delivery Percent"]` matches fully, and the resolver picks the second. -/
theorem c6_witness :
    (∀ u ∈ [tableA], qualifies u = false) ∧ qualifies tableB = true ∧
    pickTable [tableA, tableB] = some tableB :=
  ⟨by decide, by decide, c6_pick_first_full_match [tableA] tableB [] (by decide) (by decide)⟩

/-- C7 counterexample: with seven surviving rows the Selector's output is
not "the surviving rows sorted by delivery_pct descending": the trailing
`head(MAX_STOCKS)` truncates the result to six rows. -/
theorem c7_counterexample :
    selectHighDelivery 85 rowsSeven ≠ sortDesc (highDeliveryFilter 85 rowsSeven) := by
  decide

/-- C7 (amended): the Selector's output is the surviving rows sorted by
`delivery_pct` descending and then truncated to the first `MAX_STOCKS`
rows; the order on distinct delivery values is fully determined (the
source's numpy quicksort does not promise original order on ties), the
output length never exceeds `MAX_STOCKS`, and Scenario A holds:
threshold 85 on Alpha/Beta/Gamma yields `[Gamma, Alpha]`. -/
theorem c7_selector_order :
    selectHighDelivery 85 [⟨"Alpha", 100, 92.5⟩, ⟨"Beta", 50, 70⟩, ⟨"Gamma", 200, 95⟩] =
      [⟨"Gamma", 200, 95⟩, ⟨"Alpha", 100, 92.5⟩] ∧
    (∀ (thr : ℚ) (rows : List NormRow),
        List.Sorted delyGE (selectHighDelivery thr rows)) ∧
    (∀ (thr : ℚ) (rows : List NormRow),
        (selectHighDelivery thr rows).length ≤ MAX_STOCKS) := by
  refine ⟨?_, fun thr rows => ?_, fun thr rows => ?_⟩
  · norm_num [selectHighDelivery, sortDesc, highDeliveryFilter, List.insertionSort,
      List.orderedInsert, delyGE, MAX_STOCKS, List.filter]
  · exact (List.sorted_insertionSort delyGE _).sublist (List.take_sublist _ _)
  · exact List.length_take_le _ _

/-- C8 counterexample: at the negative price `-100` the Scorer does not
short-circuit to the sentinel: it computes all percentage fields
normally (here a negative upside of `-76`%). -/
theorem c8_counterexample :
    (-100 : ℚ) ≤ 0 ∧
    scoreRow "X" (-100) 90 =
      AnalysisResult.ok "X" (-100) 31 (-24) (-76) (-138) (-38)
        "Neutral to Bearish" "Strong Momentum (High Delivery)" "Moderate"
        "Range Trading" 2 := by
  have hb : ("Neutral" : String) ≠ "Bullish" := by decide
  have hq : ("Neutral" : String) ≠ "Positive" := by decide
  constructor
  · norm_num
  · norm_num [scoreRow, analyzeStock, probMoveCalc, atrFactor, rsiFactor, macdFactor,
      bullMult, upsideTargetCalc, upsidePctCalc, slPctCalc, slPriceCalc, riskRewardConst,
      technicalTag, priceActionTag, fundamentalsTag, keyDriverTag,
      estimatedAtr, estimatedRsi, macdOf, earningsOf, round2, hb, hq, min_def, max_def]

/-- C8 (amended): the Scorer reaches its fallback sentinel exactly at
price 0 (the caught `ZeroDivisionError`); every nonzero price — negative
prices included — produces a fully computed result, and the function is
total on numeric input. -/
theorem c8_zero_price_sentinel :
    ∀ (name : String) (p d : ℚ),
      scoreRow name p d = AnalysisResult.calcError name ↔ p = 0 := by
  intro name p d
  by_cases hp : p = 0 <;> simp [scoreRow, analyzeStock, hp]

/-- C9 counterexample: at the (admittedly extreme) price `10^7` the
rounded upside percentage collapses to 0, so `upside_pct > 0` and
`stop_loss_pct > 0` both fail even though the price is positive. -/
theorem c9_counterexample :
    resUpsidePct (scoreRow "X" 10000000 90) = 0 ∧
    resSlPct (scoreRow "X" 10000000 90) = 0 := by
  have hb : ("Neutral" : String) ≠ "Bullish" := by decide
  norm_num [scoreRow, analyzeStock, resUpsidePct, resSlPct, upsidePctCalc,
    upsideTargetCalc, slPctCalc, bullMult, riskRewardConst,
    estimatedAtr, estimatedRsi, macdOf, earningsOf, round2, hb, min_def, max_def]

/-- C9 (amended): for a scored row with `0 < price ≤ 100000`,
`stop_loss_pct` is `upside_pct` divided by the fixed risk-reward ratio 2
and rounded to two decimals, and the derived percentages satisfy
`0 < stop_loss_pct ≤ upside_pct` and `0 < upside_pct`.  (Without a price
bound the rounding to two decimals can collapse both to 0, see the
counterexample.) -/
theorem c9_stoploss_relation :
    ∀ (name : String) (p d : ℚ), 0 < p → p ≤ 100000 →
      resSlPct (scoreRow name p d) =
        round2 (resUpsidePct (scoreRow name p d) / riskRewardConst) ∧
      0 < resUpsidePct (scoreRow name p d) ∧
      0 < resSlPct (scoreRow name p d) ∧
      resSlPct (scoreRow name p d) ≤ resUpsidePct (scoreRow name p d) := by
  intro name p d hp hple
  have hp0 : p ≠ 0 := ne_of_gt hp
  have hU : resUpsidePct (scoreRow name p d) =
      upsidePctCalc p (estimatedAtr p d) (estimatedRsi d) (macdOf d) := by
    simp [scoreRow, analyzeStock, hp0, resUpsidePct]
  have hS : resSlPct (scoreRow name p d) =
      slPctCalc p (estimatedAtr p d) (estimatedRsi d) (macdOf d) := by
    simp [scoreRow, analyzeStock, hp0, resSlPct]
  have h15 : (15 : ℚ) ≤ estimatedAtr p d := le_max_left _ _
  have hm2 : (2 : ℚ) ≤ bullMult (estimatedRsi d) (macdOf d) := by
    unfold bullMult
    split <;> norm_num
  have ham : (30 : ℚ) ≤ estimatedAtr p d * bullMult (estimatedRsi d) (macdOf d) := by
    nlinarith [h15, hm2]
  have hut : p + 30 - 1/200 ≤ upsideTargetCalc p (estimatedAtr p d) (estimatedRsi d) (macdOf d) := by
    have hr := round2_ge (p + estimatedAtr p d * bullMult (estimatedRsi d) (macdOf d))
    unfold upsideTargetCalc
    linarith
  have hraw : (5999 : ℚ)/200000 ≤
      (upsideTargetCalc p (estimatedAtr p d) (estimatedRsi d) (macdOf d) - p) / p * 100 := by
    have hform :
        (upsideTargetCalc p (estimatedAtr p d) (estimatedRsi d) (macdOf d) - p) / p * 100 =
        (upsideTargetCalc p (estimatedAtr p d) (estimatedRsi d) (macdOf d) - p) * 100 / p := by
      ring
    rw [hform, le_div_iff₀ hp]
    linarith
  have hu2 : (4999 : ℚ)/200000 ≤ upsidePctCalc p (estimatedAtr p d) (estimatedRsi d) (macdOf d) := by
    have hr := round2_ge
      ((upsideTargetCalc p (estimatedAtr p d) (estimatedRsi d) (macdOf d) - p) / p * 100)
    unfold upsidePctCalc
    linarith
  have hslba := round2_ge (upsidePctCalc p (estimatedAtr p d) (estimatedRsi d) (macdOf d) / riskRewardConst)
  have hslbb := round2_le (upsidePctCalc p (estimatedAtr p d) (estimatedRsi d) (macdOf d) / riskRewardConst)
  have hrr : riskRewardConst = 2 := rfl
  rw [hrr] at hslba hslbb
  refine ⟨by rw [hU, hS]; rfl, by rw [hU]; linarith, ?_, ?_⟩
  · rw [hS]
    unfold slPctCalc
    rw [hrr]
    linarith
  · rw [hS, hU]
    unfold slPctCalc
    rw [hrr]
    linarith

/-- C9 witness: the amended theorem applied at price 100, delivery 92. -/
theorem c9_witness :
    0 < (100 : ℚ) ∧ (100 : ℚ) ≤ 100000 ∧
    (resSlPct (scoreRow "Gamma" 100 92) =
        round2 (resUpsidePct (scoreRow "Gamma" 100 92) / riskRewardConst) ∧
      0 < resUpsidePct (scoreRow "Gamma" 100 92) ∧
      0 < resSlPct (scoreRow "Gamma" 100 92) ∧
      resSlPct (scoreRow "Gamma" 100 92) ≤ resUpsidePct (scoreRow "Gamma" 100 92)) :=
  ⟨by decide, by decide, c9_stoploss_relation "Gamma" 100 92 (by decide) (by decide)⟩

/-- C10: every pipeline variant excludes rows whose delivery cell failed
numeric parsing (`NaN`, modelled as `none`): in `Delivery.py` the
comparison `NaN > 85` is itself false, so the filter drops the row even
without a `dropna`; `Delivery_new.py` additionally drops them first. -/
theorem c10_unparsed_never_selected :
    (∀ (rows : List RawRow) (r : RawRow), r ∈ highDeliveryOld rows → r.dely ≠ none) ∧
    (∀ (rows : List RawRow) (r : RawRow), r ∈ highDeliveryNew rows → r.dely ≠ none) := by
  refine ⟨fun rows r hr => ?_, fun rows r hr => ?_⟩
  · intro hnone
    have h2 := (List.mem_filter.mp hr).2
    simp [delyAbove85, hnone] at h2
  · intro hnone
    have h2 := (List.mem_filter.mp hr).2
    simp [delyAbove85, hnone] at h2

/-- C10 witness: the invariant applied to a concrete selected row. -/
theorem c10_witness :
    (⟨"A", some 1, some 90⟩ : RawRow) ∈ highDeliveryOld [⟨"A", some 1, some 90⟩] ∧
    (⟨"A", some 1, some 90⟩ : RawRow).dely ≠ none :=
  ⟨by decide,
    c10_unparsed_never_selected.1 [⟨"A", some 1, some 90⟩] ⟨"A", some 1, some 90⟩ (by decide)⟩
